import Mathlib

/-!
Verification of the 1A2B game server (src/server.py) against its
natural-language specification.  The definitions below are a shallow
embedding of the connection/session layer and of the turn engine
(`ConnectionManager`, `GameHost.run_game`), translated directly from the
source.  The external collaborators in package/game.py and
package/player.py are not part of src/; following the specification they
are treated as parameters of the embedding (structure `Ext`) or, where a
claim needs their value, modelled from the specification text.
-/

namespace OneA2B

/-- Models the Python unicode method isdigit for the ASCII digit strings the
protocol uses: true when the string is nonempty and every character is a
decimal digit. -/
def pyIsdigit (s : String) : Bool :=
  !s.isEmpty && s.toList.all Char.isDigit

/-- Models the Python int() conversion of a digit string to a number. -/
def pyInt (s : String) : Nat :=
  s.toList.foldl (fun n c => n * 10 + (c.toNat - 48)) 0

/-- Models Python iteration over the characters of a string
(`for d in guess`): the list of one-character strings. -/
def pyChars (s : String) : List String :=
  s.toList.map (fun c => String.singleton c)

/-- Models Python list.remove: removes the first occurrence of the value,
or raises ValueError (modelled as none) when the value is absent. -/
def listRemove (l : List String) (d : String) : Option (List String) :=
  match l with
  | [] => none
  | x :: xs => if x = d then some xs else (listRemove xs d).map (fun ys => x :: ys)

/-- An event placed on a command queue by the Reader task (server.py lines
100, 106, 119) or the Heartbeat task (lines 143, 153).  A COMMAND event is
the dict with keys type and data; a DISCONNECT event is the dict with only
the key type. -/
inductive Event where
  | command (text : String)
  | disconnect
deriving Repr, DecidableEq

/-- The value of the dict entry msg[ofKey type]: COMMAND events carry the tag
COMMAND, disconnect events carry the tag DISCONNECT (never DISCONNECTED). -/
def Event.typeField : Event → String
  | .command _ => "COMMAND"
  | .disconnect => "DISCONNECT"

/-- The value of the dict entry for the data key: present on COMMAND events,
absent (KeyError on access, modelled as none) on DISCONNECT events. -/
def Event.dataField : Event → Option String
  | .command t => some t
  | .disconnect => none

/-- One connected player as the turn engine sees it: identity, the mutable
hand/answer fields owned by the Game/Player model, and the pending contents
of the command queue (the events the Reader task has pushed and the engine
has not yet consumed). -/
structure Player where
  name : String
  numberHand : List String
  toolHand : List String
  answer : List String
  events : List Event
deriving Repr, DecidableEq

instance : Inhabited Player := ⟨⟨"", [], [], [], []⟩⟩

/-- An outbound protocol message: recipient player name and text. -/
structure Msg where
  recipient : String
  text : String
deriving Repr, DecidableEq

/-- The text "WINNER %s\n" (server.py lines 181, 251, 312, 320, 333, 384, 408). -/
def winnerText (name : String) : String :=
  "WINNER " ++ name ++ "\n"

/-- The text "HAND %s;%s\n" with nums and tools joined by commas
(server.py lines 238-241, 265-268, 373-376). -/
def handText (p : Player) : String :=
  "HAND " ++ String.intercalate "," p.numberHand ++ ";"
    ++ String.intercalate "," p.toolHand ++ "\n"

/-- The external collaborator contracts of package/game.py and
package/player.py (spec section 6).  These modules are not under src/, so
the embedding takes them as parameters: a shuffle of an answer, the
exclusion information derived from an answer, the reshuffle of a number
hand against the deck, the draw-up of a hand from the deck, the guess
check producing the (exact, value-only) pair, and the constant
NUM_GUESS_DIGITS. -/
structure Ext where
  shuffleFn : List String → List String
  excludeFn : List String → String
  reshuffleFn : List String → List String → List String × List String
  drawUpFn : List String → List String → List String × List String
  checkGuess : List String → List String → Nat × Nat
  numGuessDigits : Nat

/-! ## Connection manager: serve_forever, handle_disconnect, send_to -/

/-- The roster and latch state of the ConnectionManager (server.py lines
42-44): the players list and the start latch. -/
structure ConnMgrState where
  players : List String
  startEvent : Bool
deriving Repr, DecidableEq

/-- The observable side effects of one pass of the accept loop.  The
closeSock constructor exists so that theorems can state whether the loop
closes a rejected socket; the loop body as written never performs it. -/
inductive AcceptAct where
  | sendFull
  | closeSock
  | addRoster (name : String)
  | spawnHeartbeat
  | spawnReader
  | setStart
deriving Repr, DecidableEq

/-- One iteration of ConnectionManager.serve_forever (server.py lines
54-84) for one accepted connection: when the roster already holds 2
players the new socket is sent FULL and the loop continues (no close, no
roster entry, no tasks); otherwise a Player is created, appended to the
roster, its Heartbeat and Reader tasks are spawned, and the start latch is
set once the roster reaches size 2. -/
def serve_forever_step (s : ConnMgrState) : ConnMgrState × List AcceptAct :=
  if s.players.length ≥ 2 then
    (s, [AcceptAct.sendFull])
  else
    let pid := s.players.length + 1
    let name := "玩家" ++ toString pid
    let s1 : ConnMgrState := { s with players := s.players ++ [name] }
    let acts := [AcceptAct.addRoster name, AcceptAct.spawnHeartbeat, AcceptAct.spawnReader]
    if s1.players.length = 2 then
      ({ s1 with startEvent := true }, acts ++ [AcceptAct.setStart])
    else
      (s1, acts)

/-- Models threading.Event.wait() on the start latch (server.py line 230):
the wait returns exactly when the latch is set; while it is clear the
caller stays blocked. -/
def start_event_wait (startEvent : Bool) : Bool :=
  startEvent

/-- The result of ConnectionManager.handle_disconnect (server.py lines
175-182): the roster after removing the session, the WINNER message to the
lone survivor when exactly one remains, and the end latch. -/
structure DiscOut where
  players : List Player
  msgs : List Msg
  endEvent : Bool
deriving Repr, DecidableEq

/-- ConnectionManager.handle_disconnect (server.py lines 175-182): remove
the session from the roster; if exactly one player remains, send it WINNER
and set the end latch. -/
def handle_disconnect (players : List Player) (current : Player) (endEvent : Bool) : DiscOut :=
  let players' := if current ∈ players then players.erase current else players
  if players'.length = 1 then
    let lone := players'.headD default
    ⟨players', [⟨lone.name, winnerText lone.name⟩], true⟩
  else
    ⟨players', [], endEvent⟩

/-- The kind of error the underlying sendall call raises, when it raises. -/
inductive SendErr where
  | sockErr
  | otherExc
deriving Repr, DecidableEq

/-- The observable outcome of ConnectionManager.send_to (server.py lines
121-130): whether an exception propagated to the caller, and whether the
socket was closed.  Both except clauses catch and log without re-raising,
and a socket.error additionally closes the socket, so the call returns
normally on every input. -/
structure SendToOut where
  raised : Bool
  closedSocket : Bool
deriving Repr, DecidableEq

/-- ConnectionManager.send_to (server.py lines 121-130), indexed by what
the underlying sendall does: on success it returns; on socket.error it
logs, closes the socket and returns; on any other exception it logs and
returns.  It never propagates an exception. -/
def send_to (sendallErr : Option SendErr) : SendToOut :=
  match sendallErr with
  | none => ⟨false, false⟩
  | some SendErr.sockErr => ⟨false, true⟩
  | some SendErr.otherExc => ⟨false, false⟩

/-! ## Turn engine: tool phase (server.py lines 277-368) -/

/-- The result of the tool selection step of run_game (server.py lines
287-302): either the dead DISCONNECTED-tag branch, no tool used (every
input that is not a digit string naming a 1-based index into the tool
hand), or the selected card popped from the tool hand into the tool
discard pile. -/
inductive ToolSel where
  | disconnectedTag
  | noTool
  | used (tool : String) (current : Player) (discardTool : List String)
deriving Repr, DecidableEq

/-- The tool selection step of GameHost.run_game (server.py lines
287-302): if the dequeued message carries the tag DISCONNECTED, return
(this branch is dead because the producers push the tag DISCONNECT); if it
is a COMMAND whose text is a digit string and int(text) - 1 is a valid
index into the tool hand, pop that card into the discard pile; otherwise
fall through with no tool used. -/
def toolSelect (current : Player) (discardTool : List String) (msg : Event) : ToolSel :=
  if msg.typeField = "DISCONNECTED" then
    ToolSel.disconnectedTag
  else if msg.typeField = "COMMAND" ∧ pyIsdigit (msg.dataField.getD "") = true then
    let ci : Int := (pyInt (msg.dataField.getD "") : Int) - 1
    if 0 ≤ ci ∧ ci < (current.toolHand.length : Int) then
      let tool := current.toolHand.getD ci.toNat ""
      ToolSel.used tool { current with toolHand := current.toolHand.eraseIdx ci.toNat }
        (discardTool ++ [tool])
    else
      ToolSel.noTool
  else
    ToolSel.noTool

/-- How a phase of the turn engine ended: normal fall-through, the dead
DISCONNECTED-tag branch, or one of the ways the POS sub-protocol can stop
consuming events (queue empty so the blocking read never returns; KeyError
on the data key of a DISCONNECT event; the dead DISCONNECTED-tag branch
inside the loop). -/
inductive PhaseTag where
  | ok
  | disconnectedTagBranch
  | posBlocked
  | posKeyError
  | posDisconnectedTag
deriving Repr, DecidableEq

/-- The text "POS_RESULT %d %s\n" (server.py line 348). -/
def posResultText (p : Nat) (d : String) : String :=
  "POS_RESULT " ++ toString p ++ " " ++ d ++ "\n"

namespace ToolCard

/-- Modelled from the spec: ToolCard.pos lives in package/game.py, which is
not under src/; per spec sections 4.4 and 6 it reveals the digit of the
given answer at the given 1-based position. -/
def pos (answer : List String) (p : Nat) : String :=
  answer.getD (p - 1) ""

end ToolCard

/-- The while loop of the POS sub-protocol (server.py lines 327-343),
entered with the text of the already dequeued first reply.  While the text
is not a digit string within [1, NUM_GUESS_DIGITS]: re-send the POS prompt
to the acting player, dequeue the next event, return on the dead
DISCONNECTED-tag branch, raise KeyError on the data key of a DISCONNECT
event, and otherwise loop with the new text.  Returns the accumulated
messages, the remaining queue, the accepted position when one was
accepted, and how the loop ended. -/
def posLoopAux (n : Nat) (curName : String) (s : String) (events : List Event)
    (msgs : List Msg) : List Msg × List Event × Option Nat × PhaseTag :=
  if pyIsdigit s = true ∧ 1 ≤ pyInt s ∧ pyInt s ≤ n then
    (msgs, events, some (pyInt s), PhaseTag.ok)
  else
    let msgs1 := msgs ++ [⟨curName, "POS\n"⟩]
    match events with
    | [] => (msgs1, [], none, PhaseTag.posBlocked)
    | ev :: rest =>
      if ev.typeField = "DISCONNECTED" then
        (msgs1, rest, none, PhaseTag.posDisconnectedTag)
      else
        match ev.dataField with
        | none => (msgs1, rest, none, PhaseTag.posKeyError)
        | some s2 => posLoopAux n curName s2 rest msgs1

/-- The POS tool effect of GameHost.run_game (server.py lines 304-348):
send the POS prompt to the opponent (line 307), dequeue the first reply
from the acting player, run the re-prompt loop, and on success send
POS_RESULT with the accepted position and the digit of the opponent answer
at that 1-based position to the acting player.  The block reads the
opponent answer and the acting player queue only; no hand or answer is
written. -/
def posPhase (n : Nat) (current oppo : Player) : List Msg × Player × PhaseTag :=
  let msgs0 : List Msg := [⟨oppo.name, "POS\n"⟩]
  match current.events with
  | [] => (msgs0, current, PhaseTag.posBlocked)
  | ev :: rest =>
    if ev.typeField = "DISCONNECTED" then
      (msgs0, { current with events := rest }, PhaseTag.posDisconnectedTag)
    else
      match ev.dataField with
      | none => (msgs0, { current with events := rest }, PhaseTag.posKeyError)
      | some s =>
        match posLoopAux n current.name s rest msgs0 with
        | (msgs, restEvents, some p, _) =>
          let d := ToolCard.pos oppo.answer p
          (msgs ++ [⟨current.name, posResultText p d⟩],
            { current with events := restEvents }, PhaseTag.ok)
        | (msgs, restEvents, none, tag) =>
          (msgs, { current with events := restEvents }, tag)

/-- The state after the tool phase of one turn: the acting player, the
opponent, the tool discard pile, the number deck, the extra-guess flag for
the DOUBLE tool, the messages sent during the phase, and how the phase
ended. -/
structure ToolPhaseOut where
  current : Player
  oppo : Player
  discardTool : List String
  numberDeck : List String
  extraGuess : Bool
  msgs : List Msg
  tag : PhaseTag
deriving Repr, DecidableEq

/-- The tool phase of GameHost.run_game (server.py lines 287-368) applied
to the dequeued message: tool selection followed by the effect dispatch on
the popped card (POS, SHUFFLE, EXCLUDE, DOUBLE, RESHUFFLE), with USED_TOOL
sent to the acting player and OPP_TOOL to the opponent on any tool use.
When no tool is selected the state is unchanged, no message is sent and
the extra-guess flag stays false. -/
def toolPhase (ext : Ext) (current oppo : Player) (discardTool numberDeck : List String)
    (msg : Event) : ToolPhaseOut :=
  match toolSelect current discardTool msg with
  | ToolSel.disconnectedTag =>
    ⟨current, oppo, discardTool, numberDeck, false, [], PhaseTag.disconnectedTagBranch⟩
  | ToolSel.noTool =>
    ⟨current, oppo, discardTool, numberDeck, false, [], PhaseTag.ok⟩
  | ToolSel.used tool cur1 disc1 =>
    let msgs0 : List Msg := [⟨cur1.name, "USED_TOOL " ++ tool ++ "\n"⟩,
      ⟨oppo.name, "OPP_TOOL " ++ cur1.name ++ " " ++ tool ++ "\n"⟩]
    if tool = "POS" then
      match posPhase ext.numGuessDigits cur1 oppo with
      | (msgsPos, cur2, tag) =>
        ⟨cur2, oppo, disc1, numberDeck, false, msgs0 ++ msgsPos, tag⟩
    else if tool = "SHUFFLE" then
      let ans1 := ext.shuffleFn cur1.answer
      ⟨{ cur1 with answer := ans1 }, oppo, disc1, numberDeck, false,
        msgs0 ++ [⟨cur1.name, "SHUFFLE_RESULT " ++ String.join ans1 ++ "\n"⟩], PhaseTag.ok⟩
    else if tool = "EXCLUDE" then
      ⟨cur1, oppo, disc1, numberDeck, false,
        msgs0 ++ [⟨cur1.name, "EXCLUDE_RESULT " ++ ext.excludeFn oppo.answer ++ "\n"⟩],
        PhaseTag.ok⟩
    else if tool = "DOUBLE" then
      ⟨cur1, oppo, disc1, numberDeck, true,
        msgs0 ++ [⟨cur1.name, "DOUBLE_ACTIVE\n"⟩], PhaseTag.ok⟩
    else if tool = "RESHUFFLE" then
      let hd := ext.reshuffleFn cur1.numberHand numberDeck
      ⟨{ cur1 with numberHand := hd.1 }, oppo, disc1, hd.2, false,
        msgs0 ++ [⟨cur1.name, "RESHUFFLE_DONE\n"⟩], PhaseTag.ok⟩
    else
      ⟨cur1, oppo, disc1, numberDeck, false, msgs0, PhaseTag.ok⟩

/-- The number of guess iterations this turn (server.py line 371):
2 when DOUBLE was used, else 1. -/
def guessCount (extraGuess : Bool) : Nat :=
  if extraGuess then 2 else 1

/-! ## Turn engine: deal, broadcast, reset, guess phase -/

/-- The initial deal of GameHost.run_game (server.py lines 237-241): the
HAND messages sent after the Game object is created.  The loop iterates
over self.players[1:], that is, it drops the first roster entry. -/
def dealInitialHands (players : List Player) : List Msg :=
  (players.drop 1).map (fun p => ⟨p.name, handText p⟩)

/-- GameHost.broadcast (server.py lines 193-205): send the text to every
player not skipped.  send_to never propagates an exception (lines
121-130), so the dead list stays empty and no player is removed. -/
def broadcast (players : List Player) (text : String) : List Msg :=
  players.map (fun p => ⟨p.name, text⟩)

/-- The result of GameHost.reset_turn: which sockets were closed (by player
name), the roster afterwards, and the start latch afterwards. -/
structure ResetOut where
  closes : List String
  players : List Player
  startEvent : Bool
deriving Repr, DecidableEq

/-- GameHost.reset_turn (server.py lines 207-215): close the socket of
every player still in the roster, delete every roster entry
(del self.players[:]), and clear the start latch. -/
def reset_turn (players : List Player) : ResetOut :=
  ⟨players.map (fun p => p.name), [], false⟩

/-- The draw path of GameHost.run_game (server.py lines 416-418), reached
when the round loop completes with no winner: send DRAW to every player,
then reset_turn. -/
def drawPhase (players : List Player) : List Msg × ResetOut :=
  (players.map (fun p => ⟨p.name, "DRAW\n"⟩), reset_turn players)

/-- The removal loop of the guess phase (server.py lines 396-398): for
each character of the guess, remove it from the number hand
(list.remove raises ValueError, modelled as none, when it is absent) and
append it to the number discard pile. -/
def applyGuessRemoval (hand discard : List String) (guess : List String) :
    Option (List String × List String) :=
  match guess with
  | [] => some (hand, discard)
  | d :: ds =>
    match listRemove hand d with
    | none => none
    | some hand' => applyGuessRemoval hand' (discard ++ [d]) ds

/-- The text "RESULT %d %d\n" (server.py line 402). -/
def resultText (a b : Nat) : String :=
  "RESULT " ++ toString a ++ " " ++ toString b ++ "\n"

/-- The text "OPP_GUESS %s %s %d %d\n" (server.py line 404). -/
def oppGuessText (name guess : String) (a b : Nat) : String :=
  "OPP_GUESS " ++ name ++ " " ++ guess ++ " " ++ toString a ++ " " ++ toString b ++ "\n"

/-- How one guess iteration of run_game ends.  blocked: the queue was
empty, so the blocking dequeue never returns.  disconnectedTagBranch: the
dead branch at lines 390-392.  keyError: the dequeued event was a
DISCONNECT, so reading its data key raises an uncaught KeyError.
valueError: a guessed digit was absent from the number hand, so
list.remove raises an uncaught ValueError; both exceptions terminate
run_game abnormally.  win: the exact count equalled NUM_GUESS_DIGITS, so
run_game broadcast WINNER, ran reset_turn and returned.  next: the
iteration fell through and the engine continues. -/
inductive GuessOut where
  | blocked (msgs : List Msg)
  | disconnectedTagBranch (msgs : List Msg)
  | keyError (msgs : List Msg)
  | valueError (msgs : List Msg)
  | win (msgs : List Msg) (closes : List String) (players : List Player) (startEvent : Bool)
  | next (players : List Player) (discardNumber numberDeck : List String) (msgs : List Msg)
deriving Repr, DecidableEq

/-- One iteration of the guess phase of GameHost.run_game (server.py lines
372-411) for the player at the given roster index: send the updated HAND
and the GUESS prompt, dequeue one event, take the dead DISCONNECTED-tag
branch if its tag matches, read its data key (KeyError on a DISCONNECT
event), remove each guessed digit from the hand into the discard pile
(uncaught ValueError on an absent digit), draw the hand back up, check the
guess against the opponent answer, send RESULT and OPP_GUESS, and on an
exact count equal to NUM_GUESS_DIGITS broadcast WINNER to every roster
player, run reset_turn and return. -/
def guessIteration (ext : Ext) (players : List Player) (idx : Nat)
    (discardNumber numberDeck : List String) : GuessOut :=
  let current := players.getD idx default
  let oppo := players.getD ((idx + 1) % players.length) default
  let msgs0 : List Msg := [⟨current.name, handText current⟩,
    ⟨current.name, "GUESS " ++ String.intercalate "," current.numberHand ++ "\n"⟩]
  match current.events with
  | [] => GuessOut.blocked msgs0
  | guessMsg :: restEvents =>
    let current1 := { current with events := restEvents }
    let players1 := players.set idx current1
    if guessMsg.typeField = "DISCONNECTED" then
      GuessOut.disconnectedTagBranch msgs0
    else
      match guessMsg.dataField with
      | none => GuessOut.keyError msgs0
      | some guess =>
        match applyGuessRemoval current1.numberHand discardNumber (pyChars guess) with
        | none => GuessOut.valueError msgs0
        | some (hand1, discard1) =>
          let hd := ext.drawUpFn hand1 numberDeck
          let current2 := { current1 with numberHand := hd.1 }
          let players2 := players1.set idx current2
          let ab := ext.checkGuess oppo.answer (pyChars guess)
          let msgs1 := msgs0 ++ [⟨current2.name, resultText ab.1 ab.2⟩,
            ⟨oppo.name, oppGuessText current2.name guess ab.1 ab.2⟩]
          if ab.1 = ext.numGuessDigits then
            let r := reset_turn players2
            GuessOut.win (msgs1 ++ broadcast players2 (winnerText current2.name))
              r.closes r.players r.startEvent
          else
            GuessOut.next players2 discard1 hd.2 msgs1

/-- Whether run_game keeps executing the round loop after this guess
iteration: only the fall-through outcome continues; every other outcome is
a return (or an uncaught exception, or a wait that never finishes), so no
further guess, turn or round is played. -/
def turnContinues (o : GuessOut) : Bool :=
  match o with
  | GuessOut.next _ _ _ _ => true
  | _ => false

def GuessOut.isWin : GuessOut → Bool
  | GuessOut.win _ _ _ _ => true
  | _ => false

def GuessOut.msgsOf : GuessOut → List Msg
  | GuessOut.blocked m => m
  | GuessOut.disconnectedTagBranch m => m
  | GuessOut.keyError m => m
  | GuessOut.valueError m => m
  | GuessOut.win m _ _ _ => m
  | GuessOut.next _ _ _ m => m

def GuessOut.closesOf : GuessOut → List String
  | GuessOut.win _ c _ _ => c
  | _ => []

def GuessOut.rosterAfter : GuessOut → Option (List Player)
  | GuessOut.win _ _ ps _ => some ps
  | GuessOut.next ps _ _ _ => some ps
  | _ => none

def GuessOut.startAfter : GuessOut → Option Bool
  | GuessOut.win _ _ _ st => some st
  | _ => none

/-! ## Queue reads: the gevent blocking get and the engine try/except wrappers -/

/-- Modelled runtime semantics of gevent.queue.Queue.get() with no
timeout: the call blocks until an item is available and then returns the
oldest item; it does not raise.  Here the queue contents are the pending
event list and availability is the hypothesis that it is nonempty. -/
def geventGet (q : List Event) (h : q ≠ []) : Event × List Event :=
  (q.head h, q.tail)

/-- The result of one engine queue read as the try/except wrappers in
run_game see it: either the except branch ran (carrying the messages,
roster and end latch it would produce before returning) or the read
produced an event and the engine proceeds. -/
inductive ReadOut where
  | excBranch (msgs : List Msg) (players : List Player) (endEvent : Bool)
  | proceed (msg : Event)
deriving Repr, DecidableEq

def ReadOut.isExcBranch : ReadOut → Bool
  | ReadOut.excBranch _ _ _ => true
  | ReadOut.proceed _ => false

/-- The try/except wrapper around the tool-phase queue read (server.py
lines 280-285): on an exception from the read, handle_disconnect and
return; otherwise proceed with the dequeued event. -/
def toolGetWrapper (players : List Player) (current : Player) (endEvent : Bool)
    (r : Except Unit Event) : ReadOut :=
  match r with
  | Except.error _ =>
    let d := handle_disconnect players current endEvent
    ReadOut.excBranch d.msgs d.players d.endEvent
  | Except.ok m => ReadOut.proceed m

/-- The try/except wrappers around the POS sub-protocol queue reads
(server.py lines 308-316 and 329-337): on an exception from the read, send
WINNER to the opponent, remove the acting player from the roster, set the
end latch and return; otherwise proceed. -/
def posGetWrapper (players : List Player) (current oppo : Player)
    (r : Except Unit Event) : ReadOut :=
  match r with
  | Except.error _ =>
    ReadOut.excBranch [⟨oppo.name, winnerText oppo.name⟩]
      (if current ∈ players then players.erase current else players) true
  | Except.ok m => ReadOut.proceed m

/-- The try/except wrapper around the guess-phase queue read (server.py
lines 380-388): on an exception from the read, send WINNER to the
opponent, remove the acting player from the roster, set the end latch and
return; otherwise proceed. -/
def guessGetWrapper (players : List Player) (current oppo : Player)
    (r : Except Unit Event) : ReadOut :=
  match r with
  | Except.error _ =>
    ReadOut.excBranch [⟨oppo.name, winnerText oppo.name⟩]
      (if current ∈ players then players.erase current else players) true
  | Except.ok m => ReadOut.proceed m

/-! ## Heartbeat task (server.py lines 132-163) -/

/-- The result of one iteration of ConnectionManager._heartbeat:
breakDisconnect pushes the given number of DISCONNECT events onto the
command queue and leaves the loop via break; continueLoop sleeps the
interval and repeats; uncaughtTimeout means the gevent Timeout fired
during the ack wait and, because gevent Timeout derives from
BaseException, escaped the except Exception clause, killing the greenlet
inside the loop body. -/
inductive HBStep where
  | breakDisconnect (pushes : Nat)
  | continueLoop
  | uncaughtTimeout
deriving Repr, DecidableEq

/-- One iteration of ConnectionManager._heartbeat (server.py lines
138-157), indexed by what sendall does during the HEARTBEAT send and by
whether a heartbeat-ack token is obtained within the Timeout window.  The
send goes through send_to, which returns normally on every input, so the
except clause at lines 141-145 (push DISCONNECT, break) can fire only
when send_to raises, which it never does.  When the ack wait expires, the
with Timeout(timeout) block at lines 147-149 raises the gevent Timeout,
which derives from BaseException and is therefore not caught by the
except Exception clause at lines 151-155: the DISCONNECT push and break
there do not run and the exception propagates out of the iteration. -/
def heartbeatIter (sendallErr : Option SendErr) (ackInTime : Bool) : HBStep :=
  if (send_to sendallErr).raised then
    HBStep.breakDisconnect 1
  else if ackInTime then
    HBStep.continueLoop
  else
    HBStep.uncaughtTimeout

/-- The observable outcome of one run of the heartbeat task: how many loop
iterations ran, how many DISCONNECT events the task pushed, whether the
socket close after the loop (server.py lines 159-163) was executed, and
whether the task died with an exception that escaped the loop. -/
structure HBRun where
  iterations : Nat
  disconnectPushes : Nat
  socketCloseCalled : Bool
  uncaughtException : Bool
deriving Repr, DecidableEq

/-- The while loop of ConnectionManager._heartbeat over a finite trace of
iteration inputs; an exhausted trace models the end latch being observed
set at the loop head.  Returns the iteration count, the push count, and
whether an uncaught exception (the gevent Timeout) aborted the loop. -/
def heartbeatLoop : List (Option SendErr × Bool) → Nat × Nat × Bool
  | [] => (0, 0, false)
  | (se, ack) :: rest =>
    match heartbeatIter se ack with
    | HBStep.breakDisconnect k => (1, k, false)
    | HBStep.uncaughtTimeout => (1, 0, true)
    | HBStep.continueLoop =>
      let r := heartbeatLoop rest
      (r.1 + 1, r.2.1, r.2.2)

/-- ConnectionManager._heartbeat (server.py lines 132-163) over a finite
trace: run the loop, then close the socket of the session.  The close at
lines 160-161 runs only when the loop is exited normally (break, or the
end latch observed set); when the uncaught gevent Timeout propagates out
of the loop the greenlet dies before reaching it. -/
def heartbeatRun (trace : List (Option SendErr × Bool)) : HBRun :=
  let r := heartbeatLoop trace
  ⟨r.1, r.2.1, !r.2.2, r.2.2⟩

/-! ## Spec-modelled guess check, used to instantiate the collaborator
parameters in witnesses -/

/-- The number of occurrences of a value in a list. -/
def countOcc (l : List String) (d : String) : Nat :=
  l.countP (fun x => x == d)

/-- Modelled from the spec: Game.check_guess lives in package/game.py,
which is not under src/; per spec sections 6 and the glossary it returns
the Mastermind pair (count of guessed digits correct in position, count
correct in value but wrong in position). -/
def checkGuessSpec (answer guess : List String) : Nat × Nat :=
  let exact := (answer.zip guess).countP (fun ab => ab.1 == ab.2)
  let valueCommon := (guess.dedup).foldl
    (fun acc d => acc + min (countOcc answer d) (countOcc guess d)) 0
  (exact, valueCommon - exact)

/-- A concrete instance of the external collaborator contracts, used to
evaluate the embedding at concrete inputs: identity shuffle, empty
exclusion information, identity reshuffle and draw-up, the spec-modelled
guess check, and four guess digits. -/
def extWitness : Ext :=
  ⟨fun a => a, fun _ => "", fun h d => (h, d), fun h d => (h, d), checkGuessSpec, 4⟩

/-! ## Helper lemmas -/

/-- Setting a roster entry to a player with the same name leaves the name
list unchanged. -/
theorem map_name_set (l : List Player) (i : Nat) (p : Player)
    (h : p.name = (l.getD i default).name) :
    (l.set i p).map (fun q => q.name) = l.map (fun q => q.name) := by
  induction l generalizing i with
  | nil => simp
  | cons a t ih =>
    cases i with
    | zero => simp_all
    | succ m =>
      simp only [List.getD_cons_succ] at h
      simp [List.set, ih m h]

/-- broadcast factors through the name list. -/
theorem broadcast_names (l : List Player) (w : String) :
    broadcast l w = (l.map (fun q => q.name)).map (fun n => Msg.mk n w) := by
  simp [broadcast]

/-- Rosters with equal name lists receive equal broadcasts. -/
theorem broadcast_eq_of_names_eq (l l' : List Player) (w : String)
    (h : l.map (fun q => q.name) = l'.map (fun q => q.name)) :
    broadcast l w = broadcast l' w := by
  rw [broadcast_names, broadcast_names, h]

/-- The winning guess iteration fully characterised: when the dequeued
event is a COMMAND whose guess removes cleanly from the hand and whose
exact count equals NUM_GUESS_DIGITS, the iteration sends HAND, GUESS,
RESULT and OPP_GUESS, broadcasts WINNER to every roster player, closes
every socket, clears the roster and the start latch, and returns. -/
theorem guessIteration_win (ext : Ext) (players : List Player) (idx : Nat)
    (dn dk : List String) (g : String) (rest : List Event)
    (hand1 discard1 : List String)
    (hev : (players.getD idx default).events = Event.command g :: rest)
    (hrem : applyGuessRemoval (players.getD idx default).numberHand dn (pyChars g)
      = some (hand1, discard1))
    (hwin : (ext.checkGuess (players.getD ((idx + 1) % players.length) default).answer
      (pyChars g)).1 = ext.numGuessDigits) :
    guessIteration ext players idx dn dk
      = GuessOut.win
          ([⟨(players.getD idx default).name, handText (players.getD idx default)⟩,
            ⟨(players.getD idx default).name,
              "GUESS " ++ String.intercalate "," (players.getD idx default).numberHand ++ "\n"⟩,
            ⟨(players.getD idx default).name,
              resultText ext.numGuessDigits
                (ext.checkGuess (players.getD ((idx + 1) % players.length) default).answer
                  (pyChars g)).2⟩,
            ⟨(players.getD ((idx + 1) % players.length) default).name,
              oppGuessText (players.getD idx default).name g ext.numGuessDigits
                (ext.checkGuess (players.getD ((idx + 1) % players.length) default).answer
                  (pyChars g)).2⟩]
           ++ broadcast players (winnerText (players.getD idx default).name))
          (players.map (fun p => p.name)) [] false := by
  simp only [guessIteration, hev, Event.typeField, Event.dataField]
  rw [if_neg (by decide)]
  rw [show applyGuessRemoval ({ players.getD idx default with events := rest } : Player).numberHand
      dn (pyChars g) = some (hand1, discard1) from hrem]
  simp only [List.set_set]
  rw [if_pos (by exact hwin)]
  rw [hwin]
  have hnames : (players.set idx
      ({ name := (players.getD idx default).name, numberHand := (ext.drawUpFn hand1 dk).1,
         toolHand := (players.getD idx default).toolHand,
         answer := (players.getD idx default).answer,
         events := rest } : Player)).map (fun q => q.name) = players.map (fun q => q.name) :=
    map_name_set _ _ _ rfl
  rw [broadcast_eq_of_names_eq _ players _ hnames]
  simp only [reset_turn]
  rw [hnames]
  simp

/-! ## Claim theorems -/

/-- C1: When the turn engine dequeues the disconnect event pushed by the
Reader or Heartbeat task, it does not route to the abort path: the event
carries the tag DISCONNECT while run_game compares against DISCONNECTED,
so at the tool prompt the event is treated as no tool used, the data key
is absent, and at the guess read the engine raises KeyError instead of
declaring the remaining player winner. -/
theorem c1_disconnect_event_not_routed_to_abort :
    toolSelect ⟨"玩家1", ["1","2","3","4"], ["POS","DOUBLE"], ["1","2","3","4"], []⟩ []
        Event.disconnect = ToolSel.noTool
  ∧ Event.disconnect.typeField = "DISCONNECT"
  ∧ (Event.disconnect.typeField == "DISCONNECTED") = false
  ∧ Event.disconnect.dataField = none
  ∧ guessIteration extWitness
      [⟨"玩家1", ["1","2","3","4"], [], ["1","2","3","4"], [Event.disconnect]⟩,
       ⟨"玩家2", ["5","6","7","8"], [], ["5","6","7","8"], []⟩] 0 [] []
    = GuessOut.keyError
        [⟨"玩家1", "HAND 1,2,3,4;\n"⟩, ⟨"玩家1", "GUESS 1,2,3,4\n"⟩] := by
  refine ⟨by decide, rfl, by decide, rfl, by decide⟩

/-- C2: Processing a guess containing a digit absent from the acting
player number hand does crash the engine: list.remove raises ValueError,
nothing in run_game catches it, and the iteration ends in the uncaught
exception outcome instead of a re-prompt or a disconnect resolution. -/
theorem c2_unvalidated_guess_digit_crashes :
    listRemove ["1","2","3","4"] "9" = none
  ∧ applyGuessRemoval ["1","2","3","4"] [] (pyChars "9") = none
  ∧ guessIteration extWitness
      [⟨"玩家1", ["1","2","3","4"], [], ["1","2","3","4"], [Event.command "9"]⟩,
       ⟨"玩家2", ["5","6","7","8"], [], ["5","6","7","8"], []⟩] 0 [] []
    = GuessOut.valueError
        [⟨"玩家1", "HAND 1,2,3,4;\n"⟩, ⟨"玩家1", "GUESS 1,2,3,4\n"⟩] := by
  refine ⟨rfl, rfl, by decide⟩

/-- C3 counterexample: on a connection arriving with the roster already
holding 2 players, the accept loop sends FULL and performs no further
action; in particular it does not close the rejected socket, contrary to
the claim. -/
theorem c3_full_branch_no_socket_close :
    (serve_forever_step ⟨["玩家1", "玩家2"], true⟩).2 = [AcceptAct.sendFull]
  ∧ ((serve_forever_step ⟨["玩家1", "玩家2"], true⟩).2.contains AcceptAct.closeSock) = false := by
  decide

/-- C3 amended: a connection arriving while the roster holds 2 players is
sent FULL and nothing else happens: the roster is unchanged, no Reader or
Heartbeat task is spawned, and the socket is not explicitly closed. -/
theorem c3_full_rejected_without_roster_entry (s : ConnMgrState)
    (h : 2 ≤ s.players.length) :
    serve_forever_step s = (s, [AcceptAct.sendFull]) := by
  simp [serve_forever_step, h]

theorem c3_full_rejected_witness :
    serve_forever_step ⟨["玩家1", "玩家2"], true⟩
      = (⟨["玩家1", "玩家2"], true⟩, [AcceptAct.sendFull]) :=
  c3_full_rejected_without_roster_entry ⟨["玩家1", "玩家2"], true⟩ (by decide)

/-- C4: the initial deal iterates over self.players[1:], so with two
players in the roster only the second receives the initial HAND message;
the first roster player receives none, contrary to the claim that every
roster player receives their initial hand. -/
theorem c4_initial_hand_skips_first_player :
    (∀ p1 p2 : Player, dealInitialHands [p1, p2] = [⟨p2.name, handText p2⟩])
  ∧ dealInitialHands
      [⟨"玩家1", ["1", "2"], ["POS"], [], []⟩, ⟨"玩家2", ["3", "4"], ["DOUBLE"], [], []⟩]
    = [⟨"玩家2", "HAND 3,4;DOUBLE\n"⟩] := by
  exact ⟨fun p1 p2 => rfl, by decide⟩

/-- C5: a guess whose exact-match count as returned by check_guess equals
NUM_GUESS_DIGITS makes the iteration broadcast WINNER naming the acting
player to every roster player, close all sockets, clear the roster, and
return immediately; the fall-through outcome that would continue the round
loop does not occur, regardless of remaining rounds. -/
theorem c5_exact_match_win_terminates (ext : Ext) (players : List Player) (idx : Nat)
    (dn dk : List String) (g : String) (rest : List Event)
    (hand1 discard1 : List String)
    (hev : (players.getD idx default).events = Event.command g :: rest)
    (hrem : applyGuessRemoval (players.getD idx default).numberHand dn (pyChars g)
      = some (hand1, discard1))
    (hwin : (ext.checkGuess (players.getD ((idx + 1) % players.length) default).answer
      (pyChars g)).1 = ext.numGuessDigits) :
    guessIteration ext players idx dn dk
      = GuessOut.win
          ([⟨(players.getD idx default).name, handText (players.getD idx default)⟩,
            ⟨(players.getD idx default).name,
              "GUESS " ++ String.intercalate "," (players.getD idx default).numberHand ++ "\n"⟩,
            ⟨(players.getD idx default).name,
              resultText ext.numGuessDigits
                (ext.checkGuess (players.getD ((idx + 1) % players.length) default).answer
                  (pyChars g)).2⟩,
            ⟨(players.getD ((idx + 1) % players.length) default).name,
              oppGuessText (players.getD idx default).name g ext.numGuessDigits
                (ext.checkGuess (players.getD ((idx + 1) % players.length) default).answer
                  (pyChars g)).2⟩]
           ++ broadcast players (winnerText (players.getD idx default).name))
          (players.map (fun p => p.name)) [] false
  ∧ turnContinues (guessIteration ext players idx dn dk) = false := by
  have h := guessIteration_win ext players idx dn dk g rest hand1 discard1 hev hrem hwin
  exact ⟨h, by rw [h]; rfl⟩

theorem c5_exact_match_win_witness :
    guessIteration extWitness
      [⟨"玩家1", ["5", "6", "7", "8"], [], ["1", "2", "3", "4"], [Event.command "5678"]⟩,
       ⟨"玩家2", ["1", "2", "3", "4"], [], ["5", "6", "7", "8"], []⟩] 0 [] []
    = GuessOut.win
        [⟨"玩家1", "HAND 5,6,7,8;\n"⟩, ⟨"玩家1", "GUESS 5,6,7,8\n"⟩,
         ⟨"玩家1", "RESULT 4 0\n"⟩, ⟨"玩家2", "OPP_GUESS 玩家1 5678 4 0\n"⟩,
         ⟨"玩家1", "WINNER 玩家1\n"⟩, ⟨"玩家2", "WINNER 玩家1\n"⟩]
        ["玩家1", "玩家2"] [] false
  ∧ turnContinues (guessIteration extWitness
      [⟨"玩家1", ["5", "6", "7", "8"], [], ["1", "2", "3", "4"], [Event.command "5678"]⟩,
       ⟨"玩家2", ["1", "2", "3", "4"], [], ["5", "6", "7", "8"], []⟩] 0 [] []) = false := by
  have h := c5_exact_match_win_terminates extWitness
    [⟨"玩家1", ["5", "6", "7", "8"], [], ["1", "2", "3", "4"], [Event.command "5678"]⟩,
     ⟨"玩家2", ["1", "2", "3", "4"], [], ["5", "6", "7", "8"], []⟩] 0 [] [] "5678" []
    [] ["5", "6", "7", "8"] rfl rfl rfl
  exact ⟨h.1.trans (by decide), h.2⟩

/-- C8: the heartbeat task does not deliver the claimed guarantees.  When
the ack wait times out, the gevent Timeout (a BaseException) escapes the
except Exception clause at lines 151-155, so the greenlet dies inside the
loop having pushed no DISCONNECT and without executing the socket close at
lines 160-161; and a failed heartbeat send is swallowed inside send_to
(which closes the socket on a socket error and returns normally on every
input), so the except clause at lines 141-145 never pushes either.  Both
halves of the claim, and the close-on-any-termination guarantee, fail. -/
theorem c8_heartbeat_timeout_kills_task_without_push :
    heartbeatIter none false = HBStep.uncaughtTimeout
  ∧ (heartbeatRun [(none, false)]).disconnectPushes = 0
  ∧ (heartbeatRun [(none, false)]).socketCloseCalled = false
  ∧ (heartbeatRun [(none, false)]).uncaughtException = true
  ∧ heartbeatIter (some SendErr.sockErr) true = HBStep.continueLoop
  ∧ (send_to (some SendErr.sockErr)).raised = false
  ∧ (send_to (some SendErr.sockErr)).closedSocket = true := by
  decide

/-- C9: the blocking dequeue of gevent returns an event and never raises,
so each try/except wrapper around a queue read in run_game takes the
normal branch on every read result the queue can produce; the except
branches at lines 282-285, 308-316 and 380-388 are unreachable dead
code. -/
theorem c9_engine_queue_reads_never_hit_except (q : List Event) (h : q ≠ [])
    (players : List Player) (cur oppo : Player) (e : Bool) :
    (toolGetWrapper players cur e (Except.ok (geventGet q h).1)).isExcBranch = false
  ∧ (posGetWrapper players cur oppo (Except.ok (geventGet q h).1)).isExcBranch = false
  ∧ (guessGetWrapper players cur oppo (Except.ok (geventGet q h).1)).isExcBranch = false
  ∧ toolGetWrapper players cur e (Except.ok (geventGet q h).1)
      = ReadOut.proceed (geventGet q h).1 := by
  exact ⟨rfl, rfl, rfl, rfl⟩

theorem c9_engine_queue_reads_witness :
    (toolGetWrapper [] ⟨"玩家1", [], [], [], []⟩ false
      (Except.ok (geventGet [Event.disconnect] (by decide)).1)).isExcBranch = false
  ∧ (posGetWrapper [] ⟨"玩家1", [], [], [], []⟩ ⟨"玩家2", [], [], [], []⟩
      (Except.ok (geventGet [Event.disconnect] (by decide)).1)).isExcBranch = false
  ∧ (guessGetWrapper [] ⟨"玩家1", [], [], [], []⟩ ⟨"玩家2", [], [], [], []⟩
      (Except.ok (geventGet [Event.disconnect] (by decide)).1)).isExcBranch = false
  ∧ toolGetWrapper [] ⟨"玩家1", [], [], [], []⟩ false
      (Except.ok (geventGet [Event.disconnect] (by decide)).1)
    = ReadOut.proceed (geventGet [Event.disconnect] (by decide)).1 :=
  c9_engine_queue_reads_never_hit_except [Event.disconnect] (by decide)
    [] ⟨"玩家1", [], [], [], []⟩ ⟨"玩家2", [], [], [], []⟩ false

/-- C6: at the TOOL prompt, a COMMAND whose text is a digit string naming
a 1-based index within the tool hand pops that card into the tool discard
pile; any other COMMAND text (non-digit, or an index out of range) changes
no state, sends no message, and the engine proceeds with a single guess
iteration; in particular index 9 against a 2-card tool hand is treated as
no tool used. -/
theorem c6_tool_selection (cur oppo : Player) (disc deck : List String) (ext : Ext)
    (s : String) :
    (∀ v, pyIsdigit s = true → pyInt s = v → 1 ≤ v → v ≤ cur.toolHand.length →
      toolSelect cur disc (Event.command s)
        = ToolSel.used (cur.toolHand.getD (v - 1) "")
            { cur with toolHand := cur.toolHand.eraseIdx (v - 1) }
            (disc ++ [cur.toolHand.getD (v - 1) ""]))
  ∧ (¬ (pyIsdigit s = true ∧ 1 ≤ pyInt s ∧ pyInt s ≤ cur.toolHand.length) →
      toolSelect cur disc (Event.command s) = ToolSel.noTool)
  ∧ (toolSelect cur disc (Event.command s) = ToolSel.noTool →
      toolPhase ext cur oppo disc deck (Event.command s)
        = ⟨cur, oppo, disc, deck, false, [], PhaseTag.ok⟩)
  ∧ guessCount false = 1
  ∧ toolSelect ⟨"玩家1", ["1", "2", "3", "4"], ["POS", "DOUBLE"], ["1", "2", "3", "4"], []⟩ []
      (Event.command "9") = ToolSel.noTool := by
  refine ⟨?_, ?_, ?_, rfl, by decide⟩
  · intro v hd hv h1 h2
    subst hv
    simp only [toolSelect, Event.typeField, Event.dataField, Option.getD_some]
    rw [if_neg (by decide), if_pos ⟨by trivial, hd⟩]
    rw [if_pos (by constructor <;> omega)]
    have ht : ((pyInt s : Int) - 1).toNat = pyInt s - 1 := by omega
    rw [ht]
  · intro h
    simp only [toolSelect, Event.typeField, Event.dataField, Option.getD_some]
    rw [if_neg (by decide)]
    by_cases hd : pyIsdigit s = true
    · rw [if_pos ⟨by trivial, hd⟩]
      rw [if_neg ?_]
      intro hc
      obtain ⟨hc1, hc2⟩ := hc
      exact h ⟨hd, by omega, by omega⟩
    · rw [if_neg (by intro hc; exact hd hc.2)]
  · intro h
    simp [toolPhase, h]

theorem c6_tool_selection_witness :
    toolSelect ⟨"玩家1", ["1", "2", "3", "4"], ["POS", "DOUBLE"], ["1", "2", "3", "4"], []⟩ []
      (Event.command "2")
      = ToolSel.used "DOUBLE"
          ⟨"玩家1", ["1", "2", "3", "4"], ["POS"], ["1", "2", "3", "4"], []⟩ ["DOUBLE"]
  ∧ toolSelect ⟨"玩家1", ["1", "2", "3", "4"], ["POS", "DOUBLE"], ["1", "2", "3", "4"], []⟩ []
      (Event.command "abc") = ToolSel.noTool
  ∧ toolPhase extWitness
      ⟨"玩家1", ["1", "2", "3", "4"], ["POS", "DOUBLE"], ["1", "2", "3", "4"], []⟩
      ⟨"玩家2", ["5", "6", "7", "8"], [], ["5", "6", "7", "8"], []⟩ [] []
      (Event.command "abc")
    = ⟨⟨"玩家1", ["1", "2", "3", "4"], ["POS", "DOUBLE"], ["1", "2", "3", "4"], []⟩,
       ⟨"玩家2", ["5", "6", "7", "8"], [], ["5", "6", "7", "8"], []⟩,
       [], [], false, [], PhaseTag.ok⟩
  ∧ guessCount false = 1
  ∧ toolSelect ⟨"玩家1", ["1", "2", "3", "4"], ["POS", "DOUBLE"], ["1", "2", "3", "4"], []⟩ []
      (Event.command "9") = ToolSel.noTool := by
  have ha := c6_tool_selection
    ⟨"玩家1", ["1", "2", "3", "4"], ["POS", "DOUBLE"], ["1", "2", "3", "4"], []⟩
    ⟨"玩家2", ["5", "6", "7", "8"], [], ["5", "6", "7", "8"], []⟩ [] [] extWitness "2"
  have hb := c6_tool_selection
    ⟨"玩家1", ["1", "2", "3", "4"], ["POS", "DOUBLE"], ["1", "2", "3", "4"], []⟩
    ⟨"玩家2", ["5", "6", "7", "8"], [], ["5", "6", "7", "8"], []⟩ [] [] extWitness "abc"
  refine ⟨(ha.1 2 (by decide) (by decide) (by decide) (by decide)).trans (by decide),
    hb.2.1 (by decide), hb.2.2.1 (hb.2.1 (by decide)), rfl, ha.2.2.2.2⟩

/-- The POS re-prompt loop characterised: with a run of invalid replies
followed by a valid position, the loop sends one POS re-prompt to the
acting player per invalid reply, then accepts the valid position. -/
theorem posLoopAux_reprompts (n : Nat) (cn : String) (pstr : String) (rest : List Event)
    (hd : pyIsdigit pstr = true) (h1 : 1 ≤ pyInt pstr) (h2 : pyInt pstr ≤ n) :
    ∀ (invalids : List String) (s : String) (msgs : List Msg),
      ¬ (pyIsdigit s = true ∧ 1 ≤ pyInt s ∧ pyInt s ≤ n) →
      (∀ x ∈ invalids, ¬ (pyIsdigit x = true ∧ 1 ≤ pyInt x ∧ pyInt x ≤ n)) →
      posLoopAux n cn s (invalids.map Event.command ++ Event.command pstr :: rest) msgs
        = (msgs ++ List.replicate (invalids.length + 1) ⟨cn, "POS\n"⟩, rest,
           some (pyInt pstr), PhaseTag.ok)
  | [], s, msgs, hs, _ => by
    rw [posLoopAux, if_neg hs]
    simp only [List.map_nil, List.nil_append, Event.typeField, Event.dataField]
    rw [if_neg (by decide)]
    rw [posLoopAux, if_pos ⟨hd, h1, h2⟩]
    simp
  | x :: tl, s, msgs, hs, hinv => by
    rw [posLoopAux, if_neg hs]
    simp only [List.map_cons, List.cons_append, Event.typeField, Event.dataField]
    rw [if_neg (by decide)]
    rw [posLoopAux_reprompts n cn pstr rest hd h1 h2 tl x (msgs ++ [Msg.mk cn "POS\n"])
      (hinv x (List.mem_cons_self x tl)) (fun y hy => hinv y (List.mem_cons_of_mem x hy))]
    simp [List.replicate_succ]

/-- C7: when the POS tool is played the opponent is notified with the POS
prompt, the acting player is re-prompted once per invalid reply until its
next dequeued COMMAND is a digit string within [1, NUM_GUESS_DIGITS], and
only then POS_RESULT with the accepted position and the opponent answer
digit at that 1-based position is sent to the acting player; the acting
player hands and answer are unchanged. -/
theorem c7_pos_subprompt (n : Nat) (cur oppo : Player) (invalids : List String)
    (pstr : String) (rest : List Event)
    (hinv : ∀ x ∈ invalids, ¬ (pyIsdigit x = true ∧ 1 ≤ pyInt x ∧ pyInt x ≤ n))
    (hd : pyIsdigit pstr = true) (h1 : 1 ≤ pyInt pstr) (h2 : pyInt pstr ≤ n)
    (hev : cur.events = invalids.map Event.command ++ Event.command pstr :: rest) :
    posPhase n cur oppo
      = (⟨oppo.name, "POS\n"⟩ :: (List.replicate invalids.length ⟨cur.name, "POS\n"⟩
          ++ [⟨cur.name, posResultText (pyInt pstr) (ToolCard.pos oppo.answer (pyInt pstr))⟩]),
         { cur with events := rest }, PhaseTag.ok)
  ∧ ({ cur with events := rest } : Player).numberHand = cur.numberHand
  ∧ ({ cur with events := rest } : Player).toolHand = cur.toolHand
  ∧ ({ cur with events := rest } : Player).answer = cur.answer := by
  refine ⟨?_, rfl, rfl, rfl⟩
  cases invalids with
  | nil =>
    simp only [List.map_nil, List.nil_append] at hev
    simp only [posPhase, hev, Event.typeField, Event.dataField]
    rw [if_neg (by decide)]
    rw [posLoopAux, if_pos ⟨hd, h1, h2⟩]
    simp
  | cons x tl =>
    simp only [List.map_cons, List.cons_append] at hev
    simp only [posPhase, hev, Event.typeField, Event.dataField]
    rw [if_neg (by decide)]
    rw [posLoopAux_reprompts n cur.name pstr rest hd h1 h2 tl x [⟨oppo.name, "POS\n"⟩]
      (hinv x (List.mem_cons_self x tl)) (fun y hy => hinv y (List.mem_cons_of_mem x hy))]
    simp [List.replicate_succ]

theorem c7_pos_subprompt_witness :
    posPhase 4
      ⟨"玩家1", ["1"], [], ["9"], [Event.command "abc", Event.command "0", Event.command "2"]⟩
      ⟨"玩家2", [], [], ["5", "6", "7", "8"], []⟩
      = ([⟨"玩家2", "POS\n"⟩, ⟨"玩家1", "POS\n"⟩, ⟨"玩家1", "POS\n"⟩,
          ⟨"玩家1", "POS_RESULT 2 6\n"⟩],
         ⟨"玩家1", ["1"], [], ["9"], []⟩, PhaseTag.ok)
  ∧ (⟨"玩家1", ["1"], [], ["9"], []⟩ : Player).numberHand = ["1"]
  ∧ (⟨"玩家1", ["1"], [], ["9"], []⟩ : Player).toolHand = ([] : List String)
  ∧ (⟨"玩家1", ["1"], [], ["9"], []⟩ : Player).answer = ["9"] := by
  have h := c7_pos_subprompt 4
    ⟨"玩家1", ["1"], [], ["9"], [Event.command "abc", Event.command "0", Event.command "2"]⟩
    ⟨"玩家2", [], [], ["5", "6", "7", "8"], []⟩ ["abc", "0"] "2" []
    (by decide) (by decide) (by decide) (by decide) rfl
  exact ⟨h.1.trans (by decide), rfl, rfl, rfl⟩

/-- C10: reset_turn leaves the roster empty and the start latch cleared
after closing every remaining player socket; the draw path ends with
reset_turn; the exact-match win path leaves the roster empty and the start
latch cleared; the accept loop sets the start latch only when the roster
reaches size 2; and a cleared start latch keeps the next run_game blocked
on its initial wait. -/
theorem c10_postgame_reset (players : List Player) (ext : Ext) (pls : List Player)
    (idx : Nat) (dn dk : List String) (g : String) (rest : List Event)
    (hand1 discard1 : List String) :
    ((reset_turn players).players = [] ∧ (reset_turn players).startEvent = false
      ∧ (reset_turn players).closes = players.map (fun p => p.name))
  ∧ (drawPhase players).2 = reset_turn players
  ∧ ((pls.getD idx default).events = Event.command g :: rest →
      applyGuessRemoval (pls.getD idx default).numberHand dn (pyChars g)
        = some (hand1, discard1) →
      (ext.checkGuess (pls.getD ((idx + 1) % pls.length) default).answer (pyChars g)).1
        = ext.numGuessDigits →
      (guessIteration ext pls idx dn dk).rosterAfter = some []
        ∧ (guessIteration ext pls idx dn dk).startAfter = some false)
  ∧ (∀ s : ConnMgrState, (serve_forever_step s).1.startEvent = true →
      s.startEvent = true ∨ (serve_forever_step s).1.players.length = 2)
  ∧ start_event_wait false = false := by
  refine ⟨⟨rfl, rfl, rfl⟩, rfl, ?_, ?_, rfl⟩
  · intro hev hrem hwin
    have h := guessIteration_win ext pls idx dn dk g rest hand1 discard1 hev hrem hwin
    rw [h]
    exact ⟨rfl, rfl⟩
  · intro s
    simp only [serve_forever_step]
    split
    · exact fun h => Or.inl h
    · split
      · rename_i h2
        intro _
        exact Or.inr (by simp_all)
      · exact fun h => Or.inl h

theorem c10_postgame_reset_witness :
    (reset_turn [⟨"玩家1", [], [], [], []⟩]).players = []
  ∧ (reset_turn [⟨"玩家1", [], [], [], []⟩]).startEvent = false
  ∧ (guessIteration extWitness
      [⟨"玩家1", ["5", "6", "7", "8"], [], ["1", "2", "3", "4"], [Event.command "5678"]⟩,
       ⟨"玩家2", ["1", "2", "3", "4"], [], ["5", "6", "7", "8"], []⟩] 0 [] []).rosterAfter
      = some []
  ∧ (guessIteration extWitness
      [⟨"玩家1", ["5", "6", "7", "8"], [], ["1", "2", "3", "4"], [Event.command "5678"]⟩,
       ⟨"玩家2", ["1", "2", "3", "4"], [], ["5", "6", "7", "8"], []⟩] 0 [] []).startAfter
      = some false
  ∧ start_event_wait false = false := by
  have h := c10_postgame_reset [⟨"玩家1", [], [], [], []⟩] extWitness
    [⟨"玩家1", ["5", "6", "7", "8"], [], ["1", "2", "3", "4"], [Event.command "5678"]⟩,
     ⟨"玩家2", ["1", "2", "3", "4"], [], ["5", "6", "7", "8"], []⟩] 0 [] [] "5678" []
    [] ["5", "6", "7", "8"]
  exact ⟨h.1.1, h.1.2.1, (h.2.2.1 rfl rfl rfl).1, (h.2.2.1 rfl rfl rfl).2, h.2.2.2.2⟩

end OneA2B
